import Mathlib

/-!
Verification development for the terraform-provider-aws resources in this
repository: the S3 directory bucket framework resource and the AppFlow
connector profile SDK resource, together with a model of the generic
declarative-resource diff engine described in the design document.

The executable definitions below are shallow embeddings of the Go source:
plugin-framework attribute values become an explicit three-state type
(null / unknown / known), remote API calls become explicit result scripts
passed as arguments, and diagnostics become a list of structured records.
-/

/-- A terraform-plugin-framework string value: null, unknown, or a known string. -/
inductive FwString where
  | null
  | unknown
  | value (s : String)
deriving DecidableEq, Repr

/-- `types.String.ValueString`: the known string, or the empty string for null and unknown. -/
def FwString.valueString : FwString → String
  | .null => ""
  | .unknown => ""
  | .value s => s

/-- A terraform-plugin-framework bool value: null, unknown, or a known bool. -/
inductive FwBool where
  | null
  | unknown
  | value (b : Bool)
deriving DecidableEq, Repr

/-- `types.Bool.ValueBool`: the known bool, or false for null and unknown. -/
def FwBool.valueBool : FwBool → Bool
  | .null => false
  | .unknown => false
  | .value b => b

/-- AWS SDK enum value `awstypes.LocationTypeAvailabilityZone`. -/
def locationTypeAvailabilityZone : String := "AvailabilityZone"

/-- AWS SDK enum value `awstypes.LocationTypeLocalZone`. -/
def locationTypeLocalZone : String := "LocalZone"

/-- AWS SDK enum value `awstypes.DataRedundancySingleAvailabilityZone`. -/
def dataRedundancySingleAvailabilityZone : String := "SingleAvailabilityZone"

/-- AWS SDK enum value `awstypes.DataRedundancySingleLocalZone`. -/
def dataRedundancySingleLocalZone : String := "SingleLocalZone"

/-- AWS SDK enum value `awstypes.BucketTypeDirectory`. -/
def bucketTypeDirectory : String := "Directory"

/-- `defaultDirectoryBucketDataRedundancy`: switch on the location type; the
LocalZone case yields SingleLocalZone, every other value (including the zero
enum value read from an unknown attribute) falls to the default branch
SingleAvailabilityZone. -/
def defaultDirectoryBucketDataRedundancy (locationType : String) : String :=
  if locationType = locationTypeLocalZone then dataRedundancySingleLocalZone
  else dataRedundancySingleAvailabilityZone

/-- The nested `location` block model (`locationInfoModel` in the source).
The schema requires exactly one element (`SizeAtMost 1` plus `IsRequired`),
so the list-nested block is modelled as a single object. -/
structure LocationInfoModel where
  name : FwString
  locType : FwString
deriving DecidableEq, Repr

/-- `directoryBucketResourceModel`: the resource's attribute values. -/
structure DirectoryBucketModel where
  arn : FwString
  bucket : FwString
  dataRedundancy : FwString
  forceDestroy : FwBool
  location : LocationInfoModel
  id : FwString
  bucketType : FwString
deriving DecidableEq, Repr

/-- `directoryBucketDataRedundancyPlanModifier.PlanModifyString`: does nothing
when the planned value is already known (or null); otherwise reads the plan
and sets the planned value to the concrete default derived from the location
type value (`ValueEnum` of an unknown or null location type is the zero enum
value, the empty string). -/
def planModifyDataRedundancy (planValue : FwString) (plan : DirectoryBucketModel) : FwString :=
  if planValue ≠ FwString.unknown then planValue
  else FwString.value (defaultDirectoryBucketDataRedundancy plan.location.locType.valueString)

/-- The fixed suffix of every directory bucket name, the characters of "--x-s3". -/
def directoryBucketSuffix : List Char := ['-', '-', 'x', '-', 's', '3']

/-- The character class `[0-9a-z.-]` of the first group of `directoryBucketNameRegex`. -/
def isBucketLabelChar (c : Char) : Bool :=
  (decide ('0' ≤ c) && decide (c ≤ '9')) ||
  (decide ('a' ≤ c) && decide (c ≤ 'z')) ||
  c == '.' || c == '-'

/-- The character class `[0-9a-z]` of the availability-zone-id group of
`directoryBucketNameRegex` (the source writes it `[0-9a-za-z]`, which denotes
the same set). -/
def isAzIdChar (c : Char) : Bool :=
  (decide ('0' ≤ c) && decide (c ≤ '9')) ||
  (decide ('a' ≤ c) && decide (c ≤ 'z'))

/-- Split a character list at every hyphen (the segments between hyphens,
in order, empty segments included). -/
def splitHyphen : List Char → List (List Char)
  | [] => [[]]
  | c :: rest =>
    match splitHyphen rest with
    | [] => [[]]
    | seg :: segs => if c == '-' then [] :: seg :: segs else (c :: seg) :: segs

/-- The group `[0-9a-z]+(?:-[0-9a-z]+)+` of `directoryBucketNameRegex`: at
least two nonempty `[0-9a-z]+` segments joined by single hyphens. -/
def isAzIdChars (p : List Char) : Bool :=
  let segs := splitHyphen p
  decide (2 ≤ segs.length) && segs.all (fun seg => decide (1 ≤ seg.length) && seg.all isAzIdChar)

/-- `directoryBucketNameRegex` on a character list: some decomposition
`p1 ++ "--" ++ azid ++ "--x-s3"` exists with `p1` a nonempty `[0-9a-z.-]+`
group and `azid` matching the availability-zone-id group. The decomposition
point is searched over every prefix length, which captures the regex's
backtracking semantics; the trailing "--x-s3" is uniquely placed because it is
anchored at the end of the string. -/
def matchesDirectoryBucketChars (cs : List Char) : Bool :=
  (List.range (cs.length + 1)).any fun n =>
    let p1 := cs.take n
    let rest := cs.drop n
    decide (1 ≤ n) && p1.all isBucketLabelChar &&
    (rest.take 2 == ['-', '-']) &&
    (let mid := rest.drop 2
     (mid.drop (mid.length - 6) == directoryBucketSuffix) &&
     isAzIdChars (mid.take (mid.length - 6)))

/-- `directoryBucketNameRegex` = `^(?:[0-9a-z.-]+)--(?:[0-9a-z]+(?:-[0-9a-z]+)+)--x-s3$`
as a decidable matcher on strings. -/
def matchesDirectoryBucketName (s : String) : Bool :=
  matchesDirectoryBucketChars s.data

/-- Severity of a diagnostic appended to a response. -/
inductive Severity where
  | error
  | warning
deriving DecidableEq, Repr

/-- A structured diagnostic: `AddError` appends an error with a summary and a
detail; `NewResourceNotFoundWarningDiagnostic` appends a warning. -/
structure Diag where
  severity : Severity
  summary : String
  detail : String
deriving DecidableEq, Repr

/-- One remote control-plane call issued by the executor, with the bucket or
profile name it targets. -/
inductive RemoteCall where
  | createBucket (name : String)
  | findBucket (name : String)
  | deleteBucket (name : String)
  | emptyBucket (name : String)
deriving DecidableEq, Repr

/-- Outcome of the Create operation: the diagnostics, the remote calls issued
(in order), and the state stored on success (none when Create failed). -/
structure CreateOutcome where
  diags : List Diag
  calls : List RemoteCall
  state : Option DirectoryBucketModel
deriving Repr

/-- The schema validator on the `bucket` attribute
(`stringvalidator.RegexMatches(directoryBucketNameRegex, ...)`), run by the
framework before any lifecycle method: a match yields no diagnostics, a
mismatch yields an error diagnostic. -/
def validateDirectoryBucketConfig (bucket : String) : List Diag :=
  if matchesDirectoryBucketName bucket then []
  else [⟨Severity.error, "Invalid Attribute Value Match",
    "must be in the format [bucket_name]--[azid]--x-s3. Use the aws_s3_bucket resource to manage general purpose buckets"⟩]

/-- `directoryBucketResource.Create`, preceded by the framework's schema
validation pass. `remoteErr` scripts the result of the one `CreateBucket`
call (`none` is a nil error); `arnOf` is `directoryBucketResource.arn`, the
region-dependent ARN of a bucket name. On success the unknowns are filled:
`data.ARN` from `arnOf` and `data.ID` from `data.Bucket`. -/
def createDirectoryBucket (plan : DirectoryBucketModel) (remoteErr : Option String)
    (arnOf : String → String) : CreateOutcome :=
  match validateDirectoryBucketConfig plan.bucket.valueString with
  | d :: ds => ⟨d :: ds, [], none⟩
  | [] =>
    let calls := [RemoteCall.createBucket plan.bucket.valueString]
    match remoteErr with
    | some msg =>
      ⟨[⟨Severity.error, "creating S3 Directory Bucket (" ++ plan.bucket.valueString ++ ")", msg⟩],
        calls, none⟩
    | none =>
      let data := { plan with
        arn := FwString.value (arnOf plan.bucket.valueString)
        id := plan.bucket }
      ⟨[], calls, some data⟩

/-- The fields of `findBucket`'s successful output that Read consumes
(`BucketLocationName` may be a nil pointer, `BucketLocationType` is an enum
string). -/
structure FindBucketOutput where
  bucketLocationName : Option String
  bucketLocationType : String
deriving DecidableEq, Repr

/-- Result of `findBucket`: a successful lookup, a not-found error
(`tfresource.NotFound`), or any other error. -/
inductive FindResult where
  | found (out : FindBucketOutput)
  | notFound (msg : String)
  | failed (msg : String)
deriving DecidableEq, Repr

/-- Outcome of the Read operation: diagnostics, whether
`response.State.RemoveResource` was called, and the refreshed state stored on
success. -/
structure ReadOutcome where
  diags : List Diag
  removed : Bool
  state : Option DirectoryBucketModel
deriving Repr

/-- `fwflex.StringToFramework`: a nil string pointer becomes a null value. -/
def stringToFramework : Option String → FwString
  | some s => FwString.value s
  | none => FwString.null

/-- `directoryBucketResource.Read`: copies `data.ID` into `data.Bucket`,
looks the bucket up, removes the resource on not-found (with a warning, not
an error), surfaces any other error, and otherwise refreshes the computed
attributes from the remote output. -/
def readDirectoryBucket (st : DirectoryBucketModel) (find : FindResult)
    (arnOf : String → String) : ReadOutcome :=
  let data := { st with bucket := st.id }
  match find with
  | FindResult.notFound msg =>
    ⟨[⟨Severity.warning, "AWS resource not found during refresh", msg⟩], true, none⟩
  | FindResult.failed msg =>
    ⟨[⟨Severity.error, "reading S3 Directory Bucket (" ++ data.id.valueString ++ ")", msg⟩],
      false, none⟩
  | FindResult.found out =>
    let newData := { data with
      arn := FwString.value (arnOf data.bucket.valueString)
      dataRedundancy := FwString.value (defaultDirectoryBucketDataRedundancy out.bucketLocationType)
      location := ⟨stringToFramework out.bucketLocationName, FwString.value out.bucketLocationType⟩
      bucketType := FwString.value bucketTypeDirectory }
    ⟨[], false, some newData⟩

/-- Result of one S3 `DeleteBucket` call: nil error, the `BucketNotEmpty`
error code, the `NoSuchBucket` error code, or any other error. -/
inductive S3DeleteErr where
  | ok
  | bucketNotEmpty
  | noSuchBucket
  | failed (msg : String)
deriving DecidableEq, Repr

/-- The error message carried by a `DeleteBucket` result (`err.Error()`). -/
def S3DeleteErr.message : S3DeleteErr → String
  | .ok => ""
  | .bucketNotEmpty => "BucketNotEmpty"
  | .noSuchBucket => "NoSuchBucket"
  | .failed msg => msg

/-- Scripted remote results for one Delete run: the first `DeleteBucket`
call, the `emptyDirectoryBucket` drain (returning a deleted-object count or
an error), and the second `DeleteBucket` call (consulted only on the
force-destroy path). -/
structure DeleteRemoteScript where
  firstDelete : S3DeleteErr
  emptyResult : Except String Nat
  secondDelete : S3DeleteErr
deriving Repr

/-- Outcome of the Delete operation: diagnostics, the remote calls issued (in
order), and whether the framework removes the object from state (it does
exactly when Delete returned without an error diagnostic). -/
structure DeleteOutcome where
  diags : List Diag
  calls : List RemoteCall
  removed : Bool
deriving DecidableEq, Repr

/-- The tail of `directoryBucketResource.Delete` after the force-destroy
block: not-found is success, any other non-nil error is surfaced, a nil error
is success. -/
def finishDeleteDirectoryBucket (id : String) (err : S3DeleteErr) (calls : List RemoteCall) :
    DeleteOutcome :=
  if err = S3DeleteErr.noSuchBucket then ⟨[], calls, true⟩
  else if err = S3DeleteErr.ok then ⟨[], calls, true⟩
  else
    ⟨[⟨Severity.error, "deleting S3 Directory Bucket (" ++ id ++ ")", err.message⟩], calls, false⟩

/-- `directoryBucketResource.Delete`: one `DeleteBucket` call; if it reports
`BucketNotEmpty` and `force_destroy` is set, the bucket is emptied
(surfacing a drain error as "emptying ...") and `DeleteBucket` is called a
second time; then not-found is swallowed as success and any other error is
surfaced as "deleting ...". -/
def deleteDirectoryBucket (st : DirectoryBucketModel) (script : DeleteRemoteScript) :
    DeleteOutcome :=
  let id := st.id.valueString
  let err := script.firstDelete
  let calls := [RemoteCall.deleteBucket id]
  if err = S3DeleteErr.bucketNotEmpty ∧ st.forceDestroy.valueBool = true then
    match script.emptyResult with
    | Except.error msg =>
      ⟨[⟨Severity.error, "emptying S3 Directory Bucket (" ++ id ++ ")", msg⟩],
        calls ++ [RemoteCall.emptyBucket id], false⟩
    | Except.ok _ =>
      finishDeleteDirectoryBucket id script.secondDelete
        (calls ++ [RemoteCall.emptyBucket id, RemoteCall.deleteBucket id])
  else
    finishDeleteDirectoryBucket id err calls

/-- An opaque credentials block as stored in state
(`connector_profile_credentials` list elements); the Read path moves these
blocks around without inspecting them. -/
structure CredBlock where
  fields : List (String × String)
deriving DecidableEq, Repr

/-- The connector-specific members of `types.ConnectorProfileProperties`
consumed by `flattenConnectorProfileProperties`, modelled for a
representative subset of connectors: Amplitude (an empty properties struct),
Datadog and Dynatrace (each carrying an `InstanceUrl`). -/
structure CPProps where
  amplitude : Option Unit
  datadog : Option String
  dynatrace : Option String
deriving DecidableEq, Repr

/-- Insertion into a Go map modelled as an association list: replace the
value at an existing key, else append the pair. -/
def mapInsert (m : List (String × String)) (k v : String) : List (String × String) :=
  if m.any (fun p => p.1 = k) then m.map (fun p => if p.1 = k then (k, v) else p)
  else m ++ [(k, v)]

/-- `flattenConnectorProfileProperties` for the modelled connectors. The Go
function allocates a single map `m`, lets each present connector branch write
its fields into `m`, and stores `[]any{m}` under the connector's key, so
every present branch ends up referencing the same final map; the model
computes that final map and shares it. -/
def flattenConnectorProfileProperties (cpp : CPProps) :
    List (String × List (List (String × String))) :=
  let m : List (String × String) := []
  let m := match cpp.datadog with
    | some u => mapInsert m "instance_url" u
    | none => m
  let m := match cpp.dynatrace with
    | some u => mapInsert m "instance_url" u
    | none => m
  (match cpp.amplitude with | some _ => [("amplitude", [m])] | none => []) ++
  (match cpp.datadog with | some _ => [("datadog", [m])] | none => []) ++
  (match cpp.dynatrace with | some _ => [("dynatrace", [m])] | none => [])

/-- One element of the `connector_profile_config` list in state. -/
structure CPConfigBlock where
  connectorProfileProperties : List (String × List (List (String × String)))
  connectorProfileCredentials : List CredBlock
deriving DecidableEq, Repr

/-- `flattenConnectorProfileConfig`: a single map holding the flattened
remote properties and the caller-supplied credentials list, wrapped in a
one-element list. -/
def flattenConnectorProfileConfig (cpp : CPProps) (cpc : List CredBlock) :
    List CPConfigBlock :=
  [⟨flattenConnectorProfileProperties cpp, cpc⟩]

/-- The AppFlow connector profile resource data (`*schema.ResourceData`
projected to the attributes the CRUD functions touch). -/
structure CPState where
  id : String
  arn : String
  connectionMode : String
  connectorLabel : String
  config : List CPConfigBlock
  connectorType : String
  credentialsArn : String
  name : String
deriving DecidableEq, Repr

/-- The remote `types.ConnectorProfile` returned by
`findConnectorProfileByName`. -/
structure ConnectorProfile where
  connectorProfileArn : String
  connectionMode : String
  connectorLabel : String
  connectorProfileProperties : CPProps
  connectorType : String
  credentialsArn : String
  connectorProfileName : String
deriving DecidableEq, Repr

/-- Result of `findConnectorProfileByName`: the profile, a not-found error
(`tfresource.NotFound`), or any other error. -/
inductive CPFindResult where
  | found (p : ConnectorProfile)
  | notFound (msg : String)
  | failed (msg : String)
deriving DecidableEq, Repr

/-- Outcome of an SDK-style operation: diagnostics, the resource id after the
operation (the empty string after `d.SetId("")`), and the stored state. -/
structure CPReadOutcome where
  diags : List Diag
  idAfter : String
  state : Option CPState
deriving DecidableEq, Repr

/-- `d.Get("connector_profile_config.0.connector_profile_credentials")`: the
credentials list of the first config block, or the empty list when the config
list is empty. -/
def CPState.priorCredentials (d : CPState) : List CredBlock :=
  (d.config.head?.map (fun b => b.connectorProfileCredentials)).getD []

/-- `resourceConnectorProfileRead`: a not-found on an existing (non-new)
resource clears the id and succeeds; any other error (including not-found
during read-after-create) is surfaced; on success every attribute is set from
the remote profile except the credentials, which are copied from the prior
state because no API operation returns them. -/
def resourceConnectorProfileRead (isNewResource : Bool) (d : CPState) (find : CPFindResult) :
    CPReadOutcome :=
  match find with
  | CPFindResult.notFound msg =>
    if isNewResource = false then ⟨[], "", none⟩
    else ⟨[⟨Severity.error, "reading AppFlow Connector Profile (" ++ d.id ++ ")", msg⟩],
      d.id, none⟩
  | CPFindResult.failed msg =>
    ⟨[⟨Severity.error, "reading AppFlow Connector Profile (" ++ d.id ++ ")", msg⟩], d.id, none⟩
  | CPFindResult.found p =>
    let credentials := d.priorCredentials
    ⟨[], d.id, some { d with
      arn := p.connectorProfileArn
      connectionMode := p.connectionMode
      connectorLabel := p.connectorLabel
      config := flattenConnectorProfileConfig p.connectorProfileProperties credentials
      connectorType := p.connectorType
      credentialsArn := p.credentialsArn
      name := p.connectorProfileName }⟩

/-- Result of an AppFlow mutation call: nil error, a
`ResourceNotFoundException`, or any other error. -/
inductive AppFlowErr where
  | ok
  | resourceNotFound (msg : String)
  | failed (msg : String)
deriving DecidableEq, Repr

/-- The error message carried by an AppFlow call result. -/
def AppFlowErr.message : AppFlowErr → String
  | .ok => ""
  | .resourceNotFound msg => msg
  | .failed msg => msg

/-- `resourceConnectorProfileCreate` up to its final chained Read: a remote
error is surfaced as "creating ..." with the profile name; on success the id
is set to the name. -/
def resourceConnectorProfileCreate (name : String) (remote : AppFlowErr) :
    List Diag × Option String :=
  match remote with
  | AppFlowErr.ok => ([], some name)
  | e => ([⟨Severity.error, "creating AppFlow Connector Profile (" ++ name ++ ")", e.message⟩],
      none)

/-- `resourceConnectorProfileUpdate` up to its final chained Read: a remote
error is surfaced as "updating ..." with the resource id. -/
def resourceConnectorProfileUpdate (d : CPState) (remote : AppFlowErr) : List Diag :=
  match remote with
  | AppFlowErr.ok => []
  | e => [⟨Severity.error, "updating AppFlow Connector Profile (" ++ d.id ++ ")", e.message⟩]

/-- `resourceConnectorProfileDelete`: a `ResourceNotFoundException` is
swallowed as success, any other error is surfaced as "deleting ..." with the
resource id; the SDK removes the object from state exactly when no error
diagnostic was returned (the second component). -/
def resourceConnectorProfileDelete (d : CPState) (remote : AppFlowErr) : List Diag × Bool :=
  match remote with
  | AppFlowErr.ok => ([], true)
  | AppFlowErr.resourceNotFound _ => ([], true)
  | AppFlowErr.failed msg =>
    ([⟨Severity.error, "deleting AppFlow Connector Profile (" ++ d.id ++ ")", msg⟩], false)

/-- Modelled from the spec: a scalar attribute value of the Schema Model
(design document section 3: string, bool, int). -/
inductive Scalar where
  | str (s : String)
  | bool (b : Bool)
  | int (n : Int)
deriving DecidableEq, Repr

/-- Modelled from the spec: a typed attribute value (design document
section 3: string/bool/int/list/map/nested-object). Nested blocks are
modelled one level deep, as list- or object-valued attributes of the
enclosing schema; the ChangeSet marks of section 4.1 are per top-level
attribute. -/
inductive Val where
  | scalar (v : Scalar)
  | list (vs : List Scalar)
  | obj (fields : List (String × Scalar))
deriving DecidableEq, Repr

/-- Modelled from the spec: the value an attribute has in a desired
configuration or a prior state: absent, unknown (computed-pending, not yet
resolved), or a known value. Section 4.1: unknown values never participate
in replacement comparisons. -/
inductive AttrValue where
  | absent
  | unknown
  | known (v : Val)
deriving DecidableEq, Repr

/-- An attribute value is known when it is neither absent nor unknown. -/
def AttrValue.isKnown : AttrValue → Bool
  | .known _ => true
  | _ => false

/-- Modelled from the spec: the requiredness invariant of section 3 —
exactly one of required, optional+computed, computed-only holds per
attribute. -/
inductive AttrMode where
  | required
  | optionalComputed
  | computedOnly
deriving DecidableEq, Repr

/-- Modelled from the spec: AttributeSchema of section 3 — name, mode,
sensitivity flag, default value, validation predicate,
replacement-on-change flag. -/
structure AttrSchema where
  name : String
  mode : AttrMode
  sensitive : Bool
  defaultVal : Option Val
  validation : Val → Bool
  replaceOnChange : Bool

/-- Modelled from the spec: ResourceSchema of section 3, the ordered set of
attribute schemas. -/
abbrev ResourceSchema : Type := List AttrSchema

/-- Modelled from the spec: ResourceState of section 3 — a mapping from
attribute name to value, tagged with an identity field. -/
structure ResourceState where
  identity : String
  attrs : List (String × AttrValue)

/-- Look an attribute up in a state; a name with no entry is absent. -/
def ResourceState.get (s : ResourceState) (name : String) : AttrValue :=
  (s.attrs.lookup name).getD AttrValue.absent

/-- Modelled from the spec: the per-attribute ChangeSet marks of section 3. -/
inductive AttrMark where
  | unchanged
  | setToValue
  | computedPending
  | requiresReplacement
deriving DecidableEq, Repr

/-- Modelled from the spec: ChangeSet of section 3 — one mark per attribute,
derived each plan cycle. -/
structure ChangeSet where
  marks : List (String × AttrMark)
deriving DecidableEq, Repr

/-- Modelled from the spec: section 4.1 — a requires-replacement mark on any
attribute propagates to the whole resource. -/
def ChangeSet.requiresReplacement (c : ChangeSet) : Bool :=
  c.marks.any (fun p => p.2 = AttrMark.requiresReplacement)

/-- Modelled from the spec: the validation pass of the Diff Engine
(section 4.1) — desired violates the schema when a required attribute has no
desired value or a known desired value fails the attribute's validation
predicate; unknown desired values cannot be validated before apply. -/
def validDesired (desired : ResourceState) (sch : ResourceSchema) : Bool :=
  sch.all fun a =>
    match desired.get a.name with
    | AttrValue.absent => a.mode ≠ AttrMode.required
    | AttrValue.unknown => true
    | AttrValue.known v => a.validation v

/-- Modelled from the spec: the per-attribute comparison of the Diff Engine
(section 4.1, rules in source order): a replacement-on-change attribute whose
known desired and known prior values differ is marked requires-replacement;
a computed-only attribute with no desired value is marked computed-pending;
a computed+optional attribute omitted from desired while prior holds a value
retains the prior value and is marked unchanged; otherwise equal values are
unchanged and differing values are set-to-value. -/
def markAttr (a : AttrSchema) (d p : AttrValue) : AttrMark :=
  if a.replaceOnChange = true ∧ d.isKnown = true ∧ p.isKnown = true ∧ d ≠ p then
    AttrMark.requiresReplacement
  else if a.mode = AttrMode.computedOnly ∧ d = AttrValue.absent then
    AttrMark.computedPending
  else if a.mode = AttrMode.optionalComputed ∧ d = AttrValue.absent ∧ p ≠ AttrValue.absent then
    AttrMark.unchanged
  else if d = p then AttrMark.unchanged
  else AttrMark.setToValue

/-- Modelled from the spec: `computeChangeSet(desired, priorState, schema)`
(section 4.1) — fails with a ValidationError when desired violates the
schema constraints, otherwise marks every schema attribute by comparing its
desired value to its prior value. -/
def computeChangeSet (desired prior : ResourceState) (sch : ResourceSchema) :
    Except String ChangeSet :=
  if validDesired desired sch then
    Except.ok ⟨sch.map fun a => (a.name, markAttr a (desired.get a.name) (prior.get a.name))⟩
  else Except.error "ValidationError"

/-- Modelled from the spec: the Update transition of the Lifecycle Executor
(section 4.2) — if the ChangeSet marks requires-replacement, Update is
rejected and the caller must instead execute Delete then Create. -/
def executorUpdate (c : ChangeSet) : Except String Unit :=
  if c.requiresReplacement then
    Except.error "ChangeSet requires replacement: execute Delete then Create"
  else Except.ok ()

/-- The `arn` attribute of the directory bucket schema: computed-only. -/
def arnAttrSchema : AttrSchema :=
  ⟨"arn", AttrMode.computedOnly, false, none, fun _ => true, false⟩

/-- The `bucket` attribute: required, `RequiresReplace`, validated by the
directory bucket name regex. -/
def bucketAttrSchema : AttrSchema :=
  ⟨"bucket", AttrMode.required, false, none,
    (fun v => match v with
      | Val.scalar (Scalar.str s) => matchesDirectoryBucketName s
      | _ => false), true⟩

/-- The `force_destroy` attribute: optional+computed, static false default,
no replacement on change. -/
def forceDestroyAttrSchema : AttrSchema :=
  ⟨"force_destroy", AttrMode.optionalComputed, false, some (Val.scalar (Scalar.bool false)),
    fun _ => true, false⟩

/-- The directory bucket resource's schema expressed in the Schema Model:
`bucket` is required with the name-regex validator and
`RequiresReplace`; `data_redundancy` and `type` are optional+computed with
`RequiresReplace`; `force_destroy` is optional+computed with a static false
default; `arn` is computed-only; `id` is optional+computed; the required
`location` block (whose nested attributes all carry `RequiresReplace`) is
the object-valued attribute `location`. -/
def directoryBucketSchemaModel : ResourceSchema :=
  [arnAttrSchema,
   bucketAttrSchema,
   ⟨"data_redundancy", AttrMode.optionalComputed, false, none, fun _ => true, true⟩,
   forceDestroyAttrSchema,
   ⟨"id", AttrMode.optionalComputed, false, none, fun _ => true, false⟩,
   ⟨"type", AttrMode.optionalComputed, false, some (Val.scalar (Scalar.str bucketTypeDirectory)),
     fun _ => true, true⟩,
   ⟨"location", AttrMode.required, false, none, fun _ => true, true⟩]

/-- A concrete plan in which every computed attribute, including the nested
location type, is still unknown at plan time. -/
def planUnknownLocationType : DirectoryBucketModel :=
  ⟨FwString.unknown, FwString.value "b--usw2-az2--x-s3", FwString.unknown, FwBool.value false,
    ⟨FwString.value "usw2-az2", FwString.unknown⟩, FwString.unknown,
    FwString.value bucketTypeDirectory⟩

/-- A concrete Present directory bucket state with force_destroy false. -/
def dbStateNoForce : DirectoryBucketModel :=
  ⟨FwString.value "arn:a", FwString.value "b--usw2-az2--x-s3", FwString.null,
    FwBool.value false, ⟨FwString.value "usw2-az2", FwString.value "AvailabilityZone"⟩,
    FwString.value "b--usw2-az2--x-s3", FwString.value "Directory"⟩

/-- A concrete Present directory bucket state with force_destroy true. -/
def dbStateForce : DirectoryBucketModel :=
  ⟨FwString.value "arn:a", FwString.value "b--usw2-az2--x-s3", FwString.null,
    FwBool.value true, ⟨FwString.value "usw2-az2", FwString.value "AvailabilityZone"⟩,
    FwString.value "b--usw2-az2--x-s3", FwString.value "Directory"⟩

/-- A concrete remote script whose first delete reports BucketNotEmpty and
whose drain and retry both succeed. -/
def scriptNotEmptyThenOk : DeleteRemoteScript :=
  ⟨S3DeleteErr.bucketNotEmpty, Except.ok 7, S3DeleteErr.ok⟩

/-- A concrete AppFlow connector profile state in managed (Present) state. -/
def cpStateA : CPState :=
  ⟨"profile-1", "arn:cp", "Public", "", [⟨[], [⟨[("api_key", "k")]⟩]⟩], "Datadog",
    "arn:creds", "profile-1"⟩

/-- A concrete ARN constructor standing in for `RegionalARN`. -/
def arnOfTest (bucket : String) : String :=
  "arn:aws:s3express:::bucket/" ++ bucket

/-- A concrete plan whose bucket name "my-bucket" is not a directory bucket
name. -/
def planMyBucket : DirectoryBucketModel :=
  ⟨FwString.unknown, FwString.value "my-bucket", FwString.unknown, FwBool.value false,
    ⟨FwString.value "usw2-az2", FwString.value "AvailabilityZone"⟩, FwString.unknown,
    FwString.value bucketTypeDirectory⟩

/-- A full prior state of the directory bucket resource: every schema
attribute holds a known value. -/
def dbPriorState : ResourceState :=
  ⟨"b--usw2-az2--x-s3",
   [("arn", AttrValue.known (Val.scalar (Scalar.str "arn:aws:s3express:::bucket/b--usw2-az2--x-s3"))),
    ("bucket", AttrValue.known (Val.scalar (Scalar.str "b--usw2-az2--x-s3"))),
    ("data_redundancy", AttrValue.known (Val.scalar (Scalar.str dataRedundancySingleAvailabilityZone))),
    ("force_destroy", AttrValue.known (Val.scalar (Scalar.bool false))),
    ("id", AttrValue.known (Val.scalar (Scalar.str "b--usw2-az2--x-s3"))),
    ("type", AttrValue.known (Val.scalar (Scalar.str bucketTypeDirectory))),
    ("location", AttrValue.known (Val.obj [("name", Scalar.str "usw2-az2"),
      ("type", Scalar.str "AvailabilityZone")]))]⟩

/-- A desired configuration that renames the bucket (a replacement-on-change
attribute) and flips force_destroy (a non-replacement attribute). -/
def dbDesiredState : ResourceState :=
  ⟨"c--usw2-az1--x-s3",
   [("bucket", AttrValue.known (Val.scalar (Scalar.str "c--usw2-az1--x-s3"))),
    ("force_destroy", AttrValue.known (Val.scalar (Scalar.bool true))),
    ("location", AttrValue.known (Val.obj [("name", Scalar.str "usw2-az2"),
      ("type", Scalar.str "AvailabilityZone")]))]⟩

/-- The ChangeSet computed for the bucket-renaming plan. -/
def dbRenameChangeSet : ChangeSet :=
  ⟨[("arn", AttrMark.computedPending),
    ("bucket", AttrMark.requiresReplacement),
    ("data_redundancy", AttrMark.unchanged),
    ("force_destroy", AttrMark.setToValue),
    ("id", AttrMark.unchanged),
    ("type", AttrMark.unchanged),
    ("location", AttrMark.unchanged)]⟩

/-- A state holding no attribute values, as a prior state before Create. -/
def emptyResourceState : ResourceState := ⟨"obj-1", []⟩

/-- The ChangeSet of a diff of the full prior state against itself: every
attribute of the directory bucket schema is unchanged. -/
def dbNoopChangeSet : ChangeSet :=
  ⟨[("arn", AttrMark.unchanged),
    ("bucket", AttrMark.unchanged),
    ("data_redundancy", AttrMark.unchanged),
    ("force_destroy", AttrMark.unchanged),
    ("id", AttrMark.unchanged),
    ("type", AttrMark.unchanged),
    ("location", AttrMark.unchanged)]⟩

/-- The flattened property blocks stored in a state's config
(`connector_profile_config.0.connector_profile_properties`). -/
def CPState.propertiesBlocks (d : CPState) :
    List (String × List (List (String × String))) :=
  (d.config.head?.map (fun b => b.connectorProfileProperties)).getD []

/-- A concrete remote connector profile response for Datadog. -/
def cpRemoteDatadog : ConnectorProfile :=
  ⟨"arn:cp-new", "Private", "lbl", ⟨none, some "https://dd.example.com", none⟩, "Datadog",
    "arn:creds-new", "profile-1"⟩

/-- A diagnostic carries an operation name and a resource identity when its
summary is the operation word followed by a resource type label and the
identity in parentheses, the shape of every `AddError` summary in the
source. -/
def carriesContext (dg : Diag) (op ident : String) : Prop :=
  ∃ label : String, dg.summary = op ++ " " ++ label ++ " (" ++ ident ++ ")"

/-! ## Theorems -/

/-- C1: counterexample — in a plan where data_redundancy has no desired value
(planned value unknown) and the sibling location type is also unknown, the
plan modifier does not leave the planned value unknown: it assigns the
concrete default SingleAvailabilityZone immediately, because the unknown
location type reads as the zero enum value. -/
theorem c1_claim_counterexample :
    planModifyDataRedundancy FwString.unknown planUnknownLocationType ≠ FwString.unknown ∧
    planModifyDataRedundancy FwString.unknown planUnknownLocationType =
      FwString.value dataRedundancySingleAvailabilityZone := by
  exact ⟨by decide, by decide⟩

/-- C1 (amended): whenever the planned value of data_redundancy is unknown
(no explicit desired value), the plan modifier immediately assigns a concrete
known default derived from the location type's current value — SingleLocalZone
when that value is LocalZone and SingleAvailabilityZone otherwise — even when
the sibling location type is itself not yet known at plan time, in which case
the default is SingleAvailabilityZone; the planned value is never left
unknown. -/
theorem planModify_assigns_concrete_default (planValue : FwString)
    (plan : DirectoryBucketModel) (h : planValue = FwString.unknown) :
    ∃ s : String,
      planModifyDataRedundancy planValue plan = FwString.value s ∧
      (s = dataRedundancySingleLocalZone ∨ s = dataRedundancySingleAvailabilityZone) ∧
      (plan.location.locType = FwString.value locationTypeLocalZone →
        s = dataRedundancySingleLocalZone) ∧
      (plan.location.locType ≠ FwString.value locationTypeLocalZone →
        s = dataRedundancySingleAvailabilityZone) ∧
      (plan.location.locType = FwString.unknown → s = dataRedundancySingleAvailabilityZone) := by
  subst h
  refine ⟨defaultDirectoryBucketDataRedundancy plan.location.locType.valueString,
    ?_, ?_, ?_, ?_, ?_⟩
  · simp [planModifyDataRedundancy]
  · unfold defaultDirectoryBucketDataRedundancy
    split
    · exact Or.inl rfl
    · exact Or.inr rfl
  · intro hl
    rw [hl]
    decide
  · intro hne
    cases hloc : plan.location.locType with
    | null => decide
    | unknown => decide
    | value v =>
      rw [hloc] at hne
      have hv : v ≠ locationTypeLocalZone := fun hh => hne (by rw [hh])
      show defaultDirectoryBucketDataRedundancy v = dataRedundancySingleAvailabilityZone
      unfold defaultDirectoryBucketDataRedundancy
      rw [if_neg hv]
  · intro hu
    rw [hu]
    decide

/-- C1 (amended) at a concrete input: the plan with an unknown location type. -/
theorem planModify_assigns_concrete_default_witness :
    ∃ s : String,
      planModifyDataRedundancy FwString.unknown planUnknownLocationType = FwString.value s ∧
      (s = dataRedundancySingleLocalZone ∨ s = dataRedundancySingleAvailabilityZone) ∧
      (planUnknownLocationType.location.locType = FwString.value locationTypeLocalZone →
        s = dataRedundancySingleLocalZone) ∧
      (planUnknownLocationType.location.locType ≠ FwString.value locationTypeLocalZone →
        s = dataRedundancySingleAvailabilityZone) ∧
      (planUnknownLocationType.location.locType = FwString.unknown →
        s = dataRedundancySingleAvailabilityZone) :=
  planModify_assigns_concrete_default FwString.unknown planUnknownLocationType rfl

/-- C2: Delete on a Present directory bucket whose first DeleteBucket call
reports BucketNotEmpty. With force_destroy false, no drain is attempted (the
only remote call is the single DeleteBucket), an error is surfaced and the
object stays in state. With force_destroy true and a successful drain and
retry, the bucket is emptied and DeleteBucket is called exactly once more
(two delete calls in total) and the object is removed from state. -/
theorem delete_bucketNotEmpty_force_destroy (st : DirectoryBucketModel)
    (script : DeleteRemoteScript) (h1 : script.firstDelete = S3DeleteErr.bucketNotEmpty) :
    (st.forceDestroy.valueBool = false →
      (deleteDirectoryBucket st script).removed = false ∧
      (∃ d ∈ (deleteDirectoryBucket st script).diags, d.severity = Severity.error) ∧
      (deleteDirectoryBucket st script).calls = [RemoteCall.deleteBucket st.id.valueString]) ∧
    (∀ n : Nat, st.forceDestroy.valueBool = true → script.emptyResult = Except.ok n →
      script.secondDelete = S3DeleteErr.ok →
      (deleteDirectoryBucket st script).removed = true ∧
      (deleteDirectoryBucket st script).diags = [] ∧
      (deleteDirectoryBucket st script).calls =
        [RemoteCall.deleteBucket st.id.valueString, RemoteCall.emptyBucket st.id.valueString,
          RemoteCall.deleteBucket st.id.valueString] ∧
      ((deleteDirectoryBucket st script).calls.count
        (RemoteCall.deleteBucket st.id.valueString)) = 2) := by
  constructor
  · intro hf
    simp [deleteDirectoryBucket, finishDeleteDirectoryBucket, h1, hf]
  · intro n hf he hs
    simp [deleteDirectoryBucket, finishDeleteDirectoryBucket, h1, hf, he, hs, List.count_cons]

/-- C2 at concrete inputs: a state with force_destroy false keeps the object,
a state with force_destroy true drains and removes it. -/
theorem delete_bucketNotEmpty_force_destroy_witness :
    (deleteDirectoryBucket dbStateNoForce scriptNotEmptyThenOk).removed = false ∧
    (deleteDirectoryBucket dbStateForce scriptNotEmptyThenOk).removed = true :=
  ⟨((delete_bucketNotEmpty_force_destroy dbStateNoForce scriptNotEmptyThenOk rfl).1 rfl).1,
    ((delete_bucketNotEmpty_force_destroy dbStateForce scriptNotEmptyThenOk rfl).2 7 rfl rfl
      rfl).1⟩

/-- C3: a Read that finds the remote object gone removes it from managed
state and raises no error. For the directory bucket resource the state is
removed with only a warning diagnostic; for the connector profile resource
(when the resource is not mid-create) the id is cleared with no diagnostics
at all. -/
theorem read_notFound_removes_state (st : DirectoryBucketModel) (msg : String)
    (arnOf : String → String) (d : CPState) (msgCp : String) :
    ((readDirectoryBucket st (FindResult.notFound msg) arnOf).removed = true ∧
      ∀ dg ∈ (readDirectoryBucket st (FindResult.notFound msg) arnOf).diags,
        dg.severity ≠ Severity.error) ∧
    ((resourceConnectorProfileRead false d (CPFindResult.notFound msgCp)).idAfter = "" ∧
      (resourceConnectorProfileRead false d (CPFindResult.notFound msgCp)).diags = []) := by
  refine ⟨⟨rfl, ?_⟩, rfl, rfl⟩
  intro dg hdg
  simp [readDirectoryBucket] at hdg
  simp [hdg]

/-- C3 at concrete inputs: both resources drop the vanished object without a
fatal error. -/
theorem read_notFound_removes_state_witness :
    (readDirectoryBucket dbStateNoForce (FindResult.notFound "no bucket") arnOfTest).removed
      = true ∧
    (resourceConnectorProfileRead false cpStateA (CPFindResult.notFound "gone")).diags = [] :=
  ⟨(read_notFound_removes_state dbStateNoForce "no bucket" arnOfTest cpStateA "gone").1.1,
    (read_notFound_removes_state dbStateNoForce "no bucket" arnOfTest cpStateA "gone").2.2⟩

/-- C4: a Delete whose remote call reports not-found is success, not an
error: the first DeleteBucket reporting NoSuchBucket, the retried
DeleteBucket of the force-destroy path reporting NoSuchBucket, and the
AppFlow delete hitting a ResourceNotFoundException all end with no
diagnostics and the object removed from state. -/
theorem delete_notFound_is_success (st : DirectoryBucketModel) (script : DeleteRemoteScript)
    (d : CPState) (msg : String) :
    (script.firstDelete = S3DeleteErr.noSuchBucket →
      (deleteDirectoryBucket st script).removed = true ∧
      (deleteDirectoryBucket st script).diags = []) ∧
    (∀ n : Nat, script.firstDelete = S3DeleteErr.bucketNotEmpty →
      st.forceDestroy.valueBool = true → script.emptyResult = Except.ok n →
      script.secondDelete = S3DeleteErr.noSuchBucket →
      (deleteDirectoryBucket st script).removed = true ∧
      (deleteDirectoryBucket st script).diags = []) ∧
    (resourceConnectorProfileDelete d (AppFlowErr.resourceNotFound msg) = ([], true)) := by
  refine ⟨?_, ?_, rfl⟩
  · intro h1
    simp [deleteDirectoryBucket, finishDeleteDirectoryBucket, h1]
  · intro n h1 hf he hs
    simp [deleteDirectoryBucket, finishDeleteDirectoryBucket, h1, hf, he, hs]

/-- C4 at concrete inputs: not-found deletes succeed for both resources. -/
theorem delete_notFound_is_success_witness :
    (deleteDirectoryBucket dbStateNoForce
      ⟨S3DeleteErr.noSuchBucket, Except.ok 0, S3DeleteErr.ok⟩).removed = true ∧
    resourceConnectorProfileDelete cpStateA (AppFlowErr.resourceNotFound "gone") = ([], true) :=
  ⟨((delete_notFound_is_success dbStateNoForce
      ⟨S3DeleteErr.noSuchBucket, Except.ok 0, S3DeleteErr.ok⟩ cpStateA "gone").1 rfl).1,
    (delete_notFound_is_success dbStateNoForce
      ⟨S3DeleteErr.noSuchBucket, Except.ok 0, S3DeleteErr.ok⟩ cpStateA "gone").2.2⟩

/-- C5: the name validator accepts "b--usw2-az2--x-s3" and rejects
"my-bucket"; a Create whose plan carries "my-bucket" produces an error
diagnostic and issues no remote call at all, whatever the remote would have
answered; and every accepted name ends in the characters "--x-s3". -/
theorem directory_bucket_name_validation :
    matchesDirectoryBucketName "b--usw2-az2--x-s3" = true ∧
    matchesDirectoryBucketName "my-bucket" = false ∧
    (∀ (remoteErr : Option String) (arnOf : String → String),
      (createDirectoryBucket planMyBucket remoteErr arnOf).calls = [] ∧
      ∃ d ∈ (createDirectoryBucket planMyBucket remoteErr arnOf).diags,
        d.severity = Severity.error) ∧
    ∀ s : String, matchesDirectoryBucketName s = true → directoryBucketSuffix <:+ s.data := by
  refine ⟨by decide, by decide, ?_, ?_⟩
  · intro remoteErr arnOf
    have hm : matchesDirectoryBucketName "my-bucket" = false := by decide
    constructor
    · simp [createDirectoryBucket, validateDirectoryBucketConfig, planMyBucket,
        FwString.valueString, hm]
    · refine ⟨⟨Severity.error, "Invalid Attribute Value Match",
        "must be in the format [bucket_name]--[azid]--x-s3. Use the aws_s3_bucket resource to manage general purpose buckets"⟩,
        ?_, rfl⟩
      simp [createDirectoryBucket, validateDirectoryBucketConfig, planMyBucket,
        FwString.valueString, hm]
  · intro s h
    unfold matchesDirectoryBucketName matchesDirectoryBucketChars at h
    rw [List.any_eq_true] at h
    obtain ⟨n, hn, hcond⟩ := h
    simp only [Bool.and_eq_true, beq_iff_eq, decide_eq_true_eq] at hcond
    obtain ⟨-, hdropEq, -⟩ := hcond
    rw [← hdropEq]
    exact (List.drop_suffix _ _).trans ((List.drop_suffix _ _).trans (List.drop_suffix _ _))

/-- C5 at a concrete input: the accepted name indeed ends in "--x-s3". -/
theorem directory_bucket_name_validation_witness :
    directoryBucketSuffix <:+ ("b--usw2-az2--x-s3").data :=
  directory_bucket_name_validation.2.2.2 "b--usw2-az2--x-s3" (by decide)

/-- C6: in any schema, when a replacement-on-change attribute `a` has known
desired and known prior values that differ — even while another,
non-replacement attribute `b` changes in the same plan — the computed
ChangeSet marks the whole resource requires-replacement, and the Executor's
Update rejects that ChangeSet. -/
theorem replacement_on_change_propagates (sch : ResourceSchema)
    (desired prior : ResourceState) (a b : AttrSchema) (C : ChangeSet)
    (ha : a ∈ sch) (har : a.replaceOnChange = true)
    (hdk : (desired.get a.name).isKnown = true) (hpk : (prior.get a.name).isKnown = true)
    (hne : desired.get a.name ≠ prior.get a.name)
    (_hb : b ∈ sch) (_hbr : b.replaceOnChange = false)
    (_hbne : desired.get b.name ≠ prior.get b.name)
    (hC : computeChangeSet desired prior sch = Except.ok C) :
    C.requiresReplacement = true ∧ ∃ msg, executorUpdate C = Except.error msg := by
  have hmark : markAttr a (desired.get a.name) (prior.get a.name) =
      AttrMark.requiresReplacement := by
    unfold markAttr
    rw [if_pos ⟨har, hdk, hpk, hne⟩]
  have hCval : C.marks =
      sch.map fun x => (x.name, markAttr x (desired.get x.name) (prior.get x.name)) := by
    unfold computeChangeSet at hC
    split at hC
    · cases hC
      rfl
    · cases hC
  have hrep : C.requiresReplacement = true := by
    unfold ChangeSet.requiresReplacement
    rw [hCval, List.any_eq_true]
    refine ⟨(a.name, markAttr a (desired.get a.name) (prior.get a.name)),
      List.mem_map_of_mem _ ha, ?_⟩
    simp [hmark]
  refine ⟨hrep, "ChangeSet requires replacement: execute Delete then Create", ?_⟩
  unfold executorUpdate
  rw [if_pos hrep]

/-- C6 at a concrete input: renaming the bucket while flipping force_destroy
yields a requires-replacement ChangeSet that Update rejects. -/
theorem replacement_on_change_propagates_witness :
    dbRenameChangeSet.requiresReplacement = true ∧
    ∃ msg, executorUpdate dbRenameChangeSet = Except.error msg :=
  replacement_on_change_propagates directoryBucketSchemaModel dbDesiredState dbPriorState
    bucketAttrSchema forceDestroyAttrSchema dbRenameChangeSet
    (by unfold directoryBucketSchemaModel; exact List.mem_cons_of_mem _ (List.mem_cons_self _ _))
    rfl (by decide) (by decide) (by decide)
    (by unfold directoryBucketSchemaModel
        exact List.mem_cons_of_mem _ (List.mem_cons_of_mem _ (List.mem_cons_of_mem _
          (List.mem_cons_self _ _))))
    rfl (by decide) rfl

/-- C8: counterexample — diffing a state against itself does not mark every
attribute unchanged: for a schema with a computed-only attribute and a state
in which that attribute is absent, the attribute is marked computed-pending
(design document section 4.1: a computed-only attribute with no desired
value is always resolved after apply). -/
theorem diff_identical_input_counterexample :
    computeChangeSet emptyResourceState emptyResourceState [arnAttrSchema] =
      Except.ok ⟨[("arn", AttrMark.computedPending)]⟩ ∧
    AttrMark.computedPending ≠ AttrMark.unchanged :=
  ⟨rfl, by decide⟩

/-- Diffing a value against itself yields unchanged, except that a
computed-only attribute with an absent value is computed-pending. -/
theorem markAttr_self (a : AttrSchema) (v : AttrValue) :
    markAttr a v v = AttrMark.unchanged ∨
      (markAttr a v v = AttrMark.computedPending ∧ a.mode = AttrMode.computedOnly ∧
        v = AttrValue.absent) := by
  unfold markAttr
  rw [if_neg (by rintro ⟨-, -, -, hne⟩; exact hne rfl)]
  by_cases h2 : a.mode = AttrMode.computedOnly ∧ v = AttrValue.absent
  · rw [if_pos h2]
    exact Or.inr ⟨rfl, h2⟩
  · rw [if_neg h2, if_neg (by rintro ⟨-, h3, h4⟩; exact h4 h3), if_pos rfl]
    exact Or.inl rfl

/-- C8 (amended): a ChangeSet computed with desired configuration equal to
prior state S marks every attribute unchanged, except computed-only
attributes that are absent from S, which are marked computed-pending. -/
theorem diff_identical_input_unchanged (S : ResourceState) (sch : ResourceSchema)
    (C : ChangeSet) (hC : computeChangeSet S S sch = Except.ok C) :
    ∀ p ∈ C.marks, p.2 = AttrMark.unchanged ∨
      (p.2 = AttrMark.computedPending ∧ ∃ a ∈ sch, a.name = p.1 ∧
        a.mode = AttrMode.computedOnly ∧ S.get a.name = AttrValue.absent) := by
  have hCval : C.marks =
      sch.map fun x => (x.name, markAttr x (S.get x.name) (S.get x.name)) := by
    unfold computeChangeSet at hC
    split at hC
    · cases hC
      rfl
    · cases hC
  intro p hp
  rw [hCval] at hp
  obtain ⟨a, ha, rfl⟩ := List.mem_map.mp hp
  rcases markAttr_self a (S.get a.name) with h | ⟨h, hm, hv⟩
  · exact Or.inl h
  · exact Or.inr ⟨h, a, ha, rfl, hm, hv⟩

/-- C8 (amended) at a concrete input: diffing the fully populated prior state
against itself over the directory bucket schema, at the bucket attribute's
mark. -/
theorem diff_identical_input_unchanged_witness :
    ("bucket", AttrMark.unchanged).2 = AttrMark.unchanged ∨
      (("bucket", AttrMark.unchanged).2 = AttrMark.computedPending ∧
        ∃ a ∈ directoryBucketSchemaModel, a.name = ("bucket", AttrMark.unchanged).1 ∧
          a.mode = AttrMode.computedOnly ∧ dbPriorState.get a.name = AttrValue.absent) :=
  diff_identical_input_unchanged dbPriorState directoryBucketSchemaModel dbNoopChangeSet rfl
    ("bucket", AttrMark.unchanged) (by decide)

/-- C9: a successful Read of an AppFlow connector profile stores a config
whose credentials block is exactly the credentials block of the prior state
and whose properties block is exactly the flattened remote response. -/
theorem connector_read_preserves_credentials (isNew : Bool) (d : CPState)
    (p : ConnectorProfile) (st : CPState)
    (h : (resourceConnectorProfileRead isNew d (CPFindResult.found p)).state = some st) :
    st.priorCredentials = d.priorCredentials ∧
    st.propertiesBlocks = flattenConnectorProfileProperties p.connectorProfileProperties ∧
    st.config = flattenConnectorProfileConfig p.connectorProfileProperties
      d.priorCredentials := by
  simp only [resourceConnectorProfileRead, Option.some.injEq] at h
  subst h
  refine ⟨rfl, rfl, rfl⟩

/-- C9 at a concrete input: reading a Datadog profile keeps the prior
credentials verbatim and replaces the properties with the flattened remote
response. -/
theorem connector_read_preserves_credentials_witness :
    ((resourceConnectorProfileRead false cpStateA
      (CPFindResult.found cpRemoteDatadog)).state.map CPState.priorCredentials)
      = some cpStateA.priorCredentials := by
  have h := connector_read_preserves_credentials false cpStateA cpRemoteDatadog
    ((resourceConnectorProfileRead false cpStateA
      (CPFindResult.found cpRemoteDatadog)).state.getD cpStateA) rfl
  rw [show (resourceConnectorProfileRead false cpStateA
      (CPFindResult.found cpRemoteDatadog)).state =
    some ((resourceConnectorProfileRead false cpStateA
      (CPFindResult.found cpRemoteDatadog)).state.getD cpStateA) from rfl]
  exact congrArg some h.1

/-- C10: after a successful Create (the state was stored) and after a
successful Read (a refreshed state was stored), the id attribute and the
bucket attribute of the stored directory bucket state are the same value. -/
theorem id_equals_bucket_invariant (plan : DirectoryBucketModel) (remoteErr : Option String)
    (arnOf : String → String) (prior : DirectoryBucketModel) (find : FindResult)
    (st1 st2 : DirectoryBucketModel) :
    ((createDirectoryBucket plan remoteErr arnOf).state = some st1 → st1.id = st1.bucket) ∧
    ((readDirectoryBucket prior find arnOf).state = some st2 → st2.id = st2.bucket) := by
  constructor
  · intro h
    unfold createDirectoryBucket at h
    split at h
    · simp at h
    · split at h
      · simp at h
      · simp only [Option.some.injEq] at h
        subst h
        rfl
  · intro h
    unfold readDirectoryBucket at h
    split at h
    · simp at h
    · simp at h
    · simp only [Option.some.injEq] at h
      subst h
      rfl

/-- C10 at a concrete input: a successful Create of the valid plan stores a
state whose id equals its bucket, and a successful Read of that state
refreshes a state whose id still equals its bucket. -/
theorem id_equals_bucket_invariant_witness :
    (((createDirectoryBucket dbStateNoForce none arnOfTest).state.getD
      dbStateNoForce).id =
     ((createDirectoryBucket dbStateNoForce none arnOfTest).state.getD
      dbStateNoForce).bucket) ∧
    (((readDirectoryBucket dbStateNoForce
        (FindResult.found ⟨some "usw2-az2", "AvailabilityZone"⟩) arnOfTest).state.getD
      dbStateNoForce).id =
     ((readDirectoryBucket dbStateNoForce
        (FindResult.found ⟨some "usw2-az2", "AvailabilityZone"⟩) arnOfTest).state.getD
      dbStateNoForce).bucket) :=
  ⟨(id_equals_bucket_invariant dbStateNoForce none arnOfTest dbStateNoForce
      (FindResult.found ⟨some "usw2-az2", "AvailabilityZone"⟩)
      ((createDirectoryBucket dbStateNoForce none arnOfTest).state.getD dbStateNoForce)
      ((readDirectoryBucket dbStateNoForce
        (FindResult.found ⟨some "usw2-az2", "AvailabilityZone"⟩) arnOfTest).state.getD
        dbStateNoForce)).1 rfl,
   (id_equals_bucket_invariant dbStateNoForce none arnOfTest dbStateNoForce
      (FindResult.found ⟨some "usw2-az2", "AvailabilityZone"⟩)
      ((createDirectoryBucket dbStateNoForce none arnOfTest).state.getD dbStateNoForce)
      ((readDirectoryBucket dbStateNoForce
        (FindResult.found ⟨some "usw2-az2", "AvailabilityZone"⟩) arnOfTest).state.getD
        dbStateNoForce)).2 rfl⟩

/-- C7: every error surfaced from Create, Read, Update or Delete names the
failed operation and the resource identity in its summary and carries the
remote error verbatim in its detail, and an unexpected remote error always
produces exactly one such error diagnostic (nothing is swallowed): the
directory bucket Create (past validation), Read, Delete and forced-drain
paths, and the connector profile Create, Read, Update and Delete paths. -/
theorem errors_carry_identity_and_operation :
    (∀ (plan : DirectoryBucketModel) (msg : String) (arnOf : String → String),
      matchesDirectoryBucketName plan.bucket.valueString = true →
      ∃ dg, (createDirectoryBucket plan (some msg) arnOf).diags = [dg] ∧
        dg.severity = Severity.error ∧ carriesContext dg "creating" plan.bucket.valueString ∧
        dg.detail = msg) ∧
    (∀ (st : DirectoryBucketModel) (msg : String) (arnOf : String → String),
      ∃ dg, (readDirectoryBucket st (FindResult.failed msg) arnOf).diags = [dg] ∧
        dg.severity = Severity.error ∧ carriesContext dg "reading" st.id.valueString ∧
        dg.detail = msg) ∧
    (∀ (st : DirectoryBucketModel) (script : DeleteRemoteScript) (msg : String),
      script.firstDelete = S3DeleteErr.failed msg →
      ∃ dg, (deleteDirectoryBucket st script).diags = [dg] ∧
        dg.severity = Severity.error ∧ carriesContext dg "deleting" st.id.valueString ∧
        dg.detail = msg) ∧
    (∀ (st : DirectoryBucketModel) (script : DeleteRemoteScript) (msg : String),
      script.firstDelete = S3DeleteErr.bucketNotEmpty → st.forceDestroy.valueBool = true →
      script.emptyResult = Except.error msg →
      ∃ dg, (deleteDirectoryBucket st script).diags = [dg] ∧
        dg.severity = Severity.error ∧ carriesContext dg "emptying" st.id.valueString ∧
        dg.detail = msg) ∧
    (∀ (name msg : String),
      ∃ dg, (resourceConnectorProfileCreate name (AppFlowErr.failed msg)).1 = [dg] ∧
        dg.severity = Severity.error ∧ carriesContext dg "creating" name ∧ dg.detail = msg) ∧
    (∀ (d : CPState) (msg : String) (isNew : Bool),
      ∃ dg, (resourceConnectorProfileRead isNew d (CPFindResult.failed msg)).diags = [dg] ∧
        dg.severity = Severity.error ∧ carriesContext dg "reading" d.id ∧ dg.detail = msg) ∧
    (∀ (d : CPState) (msg : String),
      ∃ dg, resourceConnectorProfileUpdate d (AppFlowErr.failed msg) = [dg] ∧
        dg.severity = Severity.error ∧ carriesContext dg "updating" d.id ∧ dg.detail = msg) ∧
    (∀ (d : CPState) (msg : String),
      ∃ dg, (resourceConnectorProfileDelete d (AppFlowErr.failed msg)).1 = [dg] ∧
        dg.severity = Severity.error ∧ carriesContext dg "deleting" d.id ∧ dg.detail = msg) := by
  refine ⟨?_, ?_, ?_, ?_, ?_, ?_, ?_, ?_⟩
  · intro plan msg arnOf hv
    refine ⟨⟨Severity.error, "creating S3 Directory Bucket (" ++ plan.bucket.valueString ++ ")",
      msg⟩, ?_, rfl, ⟨"S3 Directory Bucket", rfl⟩, rfl⟩
    simp [createDirectoryBucket, validateDirectoryBucketConfig, hv]
  · intro st msg arnOf
    exact ⟨⟨Severity.error, "reading S3 Directory Bucket (" ++ st.id.valueString ++ ")", msg⟩,
      rfl, rfl, ⟨"S3 Directory Bucket", rfl⟩, rfl⟩
  · intro st script msg h1
    refine ⟨⟨Severity.error, "deleting S3 Directory Bucket (" ++ st.id.valueString ++ ")",
      msg⟩, ?_, rfl, ⟨"S3 Directory Bucket", rfl⟩, rfl⟩
    simp [deleteDirectoryBucket, finishDeleteDirectoryBucket, h1, S3DeleteErr.message]
  · intro st script msg h1 hf he
    refine ⟨⟨Severity.error, "emptying S3 Directory Bucket (" ++ st.id.valueString ++ ")",
      msg⟩, ?_, rfl, ⟨"S3 Directory Bucket", rfl⟩, rfl⟩
    simp [deleteDirectoryBucket, h1, hf, he]
  · intro name msg
    exact ⟨⟨Severity.error, "creating AppFlow Connector Profile (" ++ name ++ ")", msg⟩,
      rfl, rfl, ⟨"AppFlow Connector Profile", rfl⟩, rfl⟩
  · intro d msg isNew
    exact ⟨⟨Severity.error, "reading AppFlow Connector Profile (" ++ d.id ++ ")", msg⟩,
      rfl, rfl, ⟨"AppFlow Connector Profile", rfl⟩, rfl⟩
  · intro d msg
    exact ⟨⟨Severity.error, "updating AppFlow Connector Profile (" ++ d.id ++ ")", msg⟩,
      rfl, rfl, ⟨"AppFlow Connector Profile", rfl⟩, rfl⟩
  · intro d msg
    exact ⟨⟨Severity.error, "deleting AppFlow Connector Profile (" ++ d.id ++ ")", msg⟩,
      rfl, rfl, ⟨"AppFlow Connector Profile", rfl⟩, rfl⟩

/-- C7 at a concrete input: a failed Create of a validly named bucket
surfaces exactly one error diagnostic. -/
theorem errors_carry_identity_and_operation_witness :
    ∃ dg, (createDirectoryBucket dbStateNoForce (some "AccessDenied") arnOfTest).diags = [dg] ∧
      dg.severity = Severity.error ∧
      carriesContext dg "creating" dbStateNoForce.bucket.valueString ∧
      dg.detail = "AccessDenied" :=
  errors_carry_identity_and_operation.1 dbStateNoForce "AccessDenied" arnOfTest (by decide)

